import Mathlib

/-!
Verification of the XchUpshop order-import pipeline.

Shallow embedding of `src/import_orders_into_sms.py` (the main script) and of
the polling loops of the two sibling script variants
(`Working Version/import_orders_into_sms - 2025-12-22.py` and
`import_orders_into_smsNW.py`).

External effects (HTTP requests, ODBC queries and inserts, wall-clock time)
are modelled as oracles supplied to the embedded functions:
  * each status poll is an observation `(payload, elapsed)` where `elapsed`
    is the value of `time.time() - start` measured on that iteration;
  * each database insert outcome is `DbOutcome` (`ok rowcount` when
    `cursor.execute` + `commit` succeed and `cursor.rowcount = rowcount`,
    `exn` when the driver raises);
  * the vendor-name query is a function from the queried vendor string to a
    `LookupOutcome` (row found / no row / driver exception).
Logging and the UI queue are pure observers in the source and are omitted.
-/

/-- JSON-ish Python value as it appears in the job payload dictionaries.
`jnull` stands both for JSON null and for a missing key (`dict.get` returns
`None` in both cases). Numeric payload fields are integers in this API. -/
inductive JVal where
  | jnull : JVal
  | jstr : String → JVal
  | jint : Int → JVal
deriving DecidableEq

/-- Python `str(v)` on a payload value: `str(None) = "None"`. -/
def pyStr : JVal → String
  | .jnull => "None"
  | .jstr s => s
  | .jint n => toString n

/-- Characters removed by Python `str.strip()` (the ASCII whitespace set). -/
def is_py_whitespace (c : Char) : Bool :=
  c = ' ' || c = '\t' || c = '\n' || c = '\r' || c = '\x0b' || c = '\x0c'

/-- Python `s.strip()`: drop leading and trailing whitespace. -/
def py_strip (s : String) : String :=
  ⟨((s.data.dropWhile is_py_whitespace).reverse.dropWhile is_py_whitespace).reverse⟩

/-- Python `str.lower()` on one character (ASCII range). -/
def py_lower_char (c : Char) : Char :=
  if 'A' ≤ c ∧ c ≤ 'Z' then Char.ofNat (c.toNat + 32) else c

/-- Python `s.lower()`. -/
def py_lower (s : String) : String :=
  ⟨s.data.map py_lower_char⟩

/-- `safe_str` from the source: `"" if v is None else str(v).strip()`. -/
def safe_str (v : JVal) : String :=
  match v with
  | .jnull => ""
  | _ => py_strip (pyStr v)

/-- `safe_int` from the source: default when `v` is `None` or `""`,
otherwise `int(v)`, with any conversion error mapped to the default
(Python `int` on a string ignores surrounding whitespace). -/
def safe_int (v : JVal) (default : Int) : Int :=
  match v with
  | .jnull => default
  | .jint n => n
  | .jstr s => if s = "" then default else ((py_strip s).toInt?).getD default

/-- Python truthiness of `x or y` on two optional strings:
`None` and `""` are falsy, so the right operand is returned in those cases.
This embeds `payload.get("status") or payload.get("state")`. -/
def py_or_opt (a b : Option String) : Option String :=
  match a with
  | some s => if s = "" then b else some s
  | none => b

/-- One order-line record of the job result set (`data` array element). -/
structure Item where
  case_order_number : JVal
  effective_date : JVal
  store_number : JVal
  approval_date : JVal
  vendor_number : JVal
  department_number : JVal
  sku : JVal
  description : JVal
  order_quantity : JVal
deriving DecidableEq

/-- A job-status response body: the fields the scripts read from it. -/
structure Payload where
  status : Option String
  state : Option String
  message : Option String
  data : List Item
deriving DecidableEq

/-- `status_raw = status_payload.get("status") or status_payload.get("state")`. -/
def status_raw_of (p : Payload) : Option String :=
  py_or_opt p.status p.state

/-- `status_val = (status_raw or "").strip().lower()`. -/
def status_val_of (p : Payload) : String :=
  py_lower (py_strip ((status_raw_of p).getD ""))

/-- `terminal_success = {"finished"}` from the source. -/
def terminal_success : List String := ["finished"]

/-- `terminal_failure = {"failed", "error", "cancelled", "canceled"}`. -/
def terminal_failure : List String := ["failed", "error", "cancelled", "canceled"]

/-- A payload whose status value is in either terminal set. -/
def is_terminal (p : Payload) : Prop :=
  status_val_of p ∈ terminal_success ∨ status_val_of p ∈ terminal_failure

instance (p : Payload) : Decidable (is_terminal p) := by
  unfold is_terminal; infer_instance

/-- Outcome of the polling loop: normal return of the final payload,
`RuntimeError` on a terminal failure status (carrying `status_raw` and
`message`), or `TimeoutError` (carrying the last `status_raw`). -/
inductive PollResult where
  | success (payload : Payload)
  | jobFailed (status_raw : Option String) (message : Option String)
  | timeout (status_raw : Option String)
deriving DecidableEq

/-- Default `timeout_seconds` of `wait_for_job_completion` in all variants. -/
def default_timeout_seconds : Nat := 1800

/-- Default `poll_interval_seconds` of `wait_for_job_completion`. -/
def default_poll_interval_seconds : Nat := 5

/-- The polling loop of the main script (`wait_for_job_completion`), fed the
sequence of per-iteration observations `(status payload, elapsed seconds)`.
Returns `none` when the observation sequence is exhausted without the loop
having terminated (the real loop would keep polling). `last_status` tracking
and `time.sleep` only affect logging/pacing and are omitted. -/
def wait_for_job_completion (timeout_seconds : Nat) :
    List (Payload × Nat) → Option PollResult
  | [] => none
  | (status_payload, elapsed) :: rest =>
    let status_raw := py_or_opt status_payload.status status_payload.state
    let status_val := py_lower (py_strip (status_raw.getD ""))
    if status_val ∈ terminal_success then
      some (.success status_payload)
    else if status_val ∈ terminal_failure then
      some (.jobFailed status_raw status_payload.message)
    else if elapsed > timeout_seconds then
      some (.timeout status_raw)
    else
      wait_for_job_completion timeout_seconds rest

namespace WorkingVersion

/-- The polling loop of `Working Version/import_orders_into_sms - 2025-12-22.py`;
same structure as the main script, differing only in logging. -/
def wait_for_job_completion (timeout_seconds : Nat) :
    List (Payload × Nat) → Option PollResult
  | [] => none
  | (status_payload, elapsed) :: rest =>
    let status_raw := py_or_opt status_payload.status status_payload.state
    let status_val := py_lower (py_strip (status_raw.getD ""))
    if status_val ∈ terminal_success then
      some (.success status_payload)
    else if status_val ∈ terminal_failure then
      some (.jobFailed status_raw status_payload.message)
    else if elapsed > timeout_seconds then
      some (.timeout status_raw)
    else
      wait_for_job_completion timeout_seconds rest

end WorkingVersion

namespace NW

/-- The polling loop of `import_orders_into_smsNW.py`; it inlines the elapsed
computation in the timeout test (`(time.time() - start) > timeout_seconds`)
instead of binding it first, which reads the clock at the same point. -/
def wait_for_job_completion (timeout_seconds : Nat) :
    List (Payload × Nat) → Option PollResult
  | [] => none
  | (payload, elapsed) :: rest =>
    let status_raw := py_or_opt payload.status payload.state
    let status_val := py_lower (py_strip (status_raw.getD ""))
    if status_val ∈ terminal_success then
      some (.success payload)
    else if status_val ∈ terminal_failure then
      some (.jobFailed status_raw payload.message)
    else if elapsed > timeout_seconds then
      some (.timeout status_raw)
    else
      wait_for_job_completion timeout_seconds rest

end NW

/-- Outcome of the vendor-name query `SELECT F334 FROM VENDOR_TAB WHERE F27 = ?`:
a row was returned with value `v` in its first column, no row matched, or the
driver raised. -/
inductive LookupOutcome where
  | row (v : JVal)
  | norow : LookupOutcome
  | exn : LookupOutcome
deriving DecidableEq

/-- Result of one `get_vendor_name_cached` call: the returned value, the
vendor cache afterwards, and how many downstream queries were performed. -/
structure CacheResult where
  value : String
  cache : List (String × String)
  queries : Nat
deriving DecidableEq

/-- `get_vendor_name_cached(conn, vendor_number, vendor_cache)` from the main
script. The Python dict is modelled as an association list whose most recent
binding shadows older ones; `lookup` is the database oracle, applied to
`str(vendor_number)` exactly when a query is issued. On a cache hit no query
runs; on a miss the query result (or `""` on no row / `None` column /
exception) is cached and returned. -/
def get_vendor_name_cached (lookup : String → LookupOutcome) (vendor_number : JVal)
    (vendor_cache : List (String × String)) : CacheResult :=
  let key := safe_str vendor_number
  match List.lookup key vendor_cache with
  | some v => ⟨v, vendor_cache, 0⟩
  | none =>
    match lookup (pyStr vendor_number) with
    | .row v =>
      let vendor_name := match v with
        | .jnull => ""
        | _ => py_strip (pyStr v)
      ⟨vendor_name, (key, vendor_name) :: vendor_cache, 1⟩
    | .norow => ⟨"", (key, "") :: vendor_cache, 1⟩
    | .exn => ⟨"", (key, "") :: vendor_cache, 1⟩

/-- Outcome of one staging-table insert (`cursor.execute` + `conn.commit`):
`ok n` when the write succeeds and `cursor.rowcount = n`, `exn` when the
driver raises. -/
inductive DbOutcome where
  | ok (rowcount : Int)
  | exn : DbOutcome
deriving DecidableEq

/-- Python `inserted if inserted else 0` on an int rowcount (0 is falsy). -/
def py_truthy_or_zero (n : Int) : Int :=
  if n = 0 then 0 else n

/-- The 19-value tuple bound by `send_rechdr` for `INSERT INTO TMP_REC_BAT`,
in source order, given the vendor name resolved through the cache. -/
def send_rechdr_values (item : Item) (vendor_name : String) : List JVal :=
  let sms_order_number := pyStr item.case_order_number
  let store_number_string := "00" ++ pyStr item.store_number
  [ .jstr sms_order_number,
    item.vendor_number,
    item.approval_date,
    item.case_order_number,
    item.approval_date,
    item.effective_date,
    .jstr vendor_name,
    .jint 88454,
    .jint 121609,
    .jint 121609,
    .jstr store_number_string,
    .jstr "901",
    .jstr "OPEN",
    .jstr "ORDER",
    .jint 1,
    .jint 757,
    .jstr "Upshop Order",
    item.effective_date,
    item.effective_date ]

/-- The validation and value construction of `send_recdtl`: `none` when the
trimmed SKU is empty (the function raises `ValueError` before touching the
database), otherwise the 12-value tuple for `INSERT INTO TMP_REC_DTL` in
source order. `float(order_quantity)` is an integral float and is modelled by
its integer value; `safe_int(line_num)` is the line number itself. -/
def send_recdtl_values (item : Item) (line_num : Nat) : Option (List JVal) :=
  let case_order_number := safe_int item.case_order_number 0
  let department_number := safe_int item.department_number 0
  let sku := safe_str item.sku
  let description := safe_str item.description
  let order_quantity := safe_int item.order_quantity 0
  if sku = "" then none
  else some
    [ .jint case_order_number,
      .jint (line_num : Int),
      .jstr sku,
      .jint department_number,
      .jint order_quantity,
      .jstr description,
      .jint 3510,
      .jstr "ITEM",
      .jstr "CASE",
      .jstr "C",
      .jint order_quantity,
      item.approval_date ]

/-- The `totals` dictionary of `run_import`, in source field order. Insert
counters are integers because they accumulate driver rowcounts. -/
structure Totals where
  hdr_inserts : Int
  dtl_inserts : Int
  items_seen : Nat
  hdr_skipped : Nat
  dtl_skipped : Nat
deriving DecidableEq

/-- One record of the result set together with the database oracle for the
header insert attempt and the detail insert attempt of that record (each
consulted only if the corresponding `cursor.execute` is reached). -/
structure ItemObs where
  item : Item
  hdrDb : DbOutcome
  dtlDb : DbOutcome
deriving DecidableEq

/-- `vendor_case_key = f"{item.get('vendor_number')}{po}"` with
`po = item.get("case_order_number")`. -/
def vendor_case_key (item : Item) : String :=
  pyStr item.vendor_number ++ pyStr item.case_order_number

/-- State of the insert loop of `run_import`: the running totals, the
`seen_headers` set, the vendor cache, `line_number`, and instrumentation
recording each insert statement actually executed, as
`(line_number at the attempt, bound values)`. -/
structure LoopState where
  totals : Totals
  seen : Finset String
  cache : List (String × String)
  line_number : Nat
  hdrEvents : List (Nat × List JVal)
  dtlEvents : List (Nat × List JVal)
deriving DecidableEq

/-- Loop state on entry: zero totals, empty `seen_headers`, empty vendor
cache, `line_number = 1`, no insert yet. -/
def init_loop_state : LoopState :=
  ⟨⟨0, 0, 0, 0, 0⟩, ∅, [], 1, [], []⟩

/-- The header section of the loop body: if the dedup key is unseen, attempt
`send_rechdr` (resolve the vendor name through the cache, build the tuple,
execute). On success add the rowcount to `hdr_inserts` and only then mark the
key seen; on a driver exception increment `hdr_skipped` and leave
`seen_headers` unchanged, as in the source `try` block. -/
def hdr_phase (lookup : String → LookupOutcome) (st : LoopState) (x : ItemObs) :
    LoopState :=
  let key := vendor_case_key x.item
  if key ∉ st.seen then
    let c := get_vendor_name_cached lookup x.item.vendor_number st.cache
    let vals := send_rechdr_values x.item c.value
    let st1 := { st with
      cache := c.cache,
      hdrEvents := st.hdrEvents ++ [(st.line_number, vals)] }
    match x.hdrDb with
    | .ok n =>
      { st1 with
        totals := { st1.totals with
          hdr_inserts := st1.totals.hdr_inserts + py_truthy_or_zero n },
        seen := insert key st1.seen }
    | .exn =>
      { st1 with
        totals := { st1.totals with hdr_skipped := st1.totals.hdr_skipped + 1 } }
  else st

/-- The detail section of the loop body: `send_recdtl` raises `ValueError`
before the insert when the SKU is empty (caught: `dtl_skipped` increments);
otherwise the insert is executed and on success its rowcount is added to
`dtl_inserts`, on a driver exception `dtl_skipped` increments. -/
def dtl_phase (st : LoopState) (x : ItemObs) : LoopState :=
  match send_recdtl_values x.item st.line_number with
  | none =>
    { st with
      totals := { st.totals with dtl_skipped := st.totals.dtl_skipped + 1 } }
  | some vals =>
    let st1 := { st with dtlEvents := st.dtlEvents ++ [(st.line_number, vals)] }
    match x.dtlDb with
    | .ok n =>
      { st1 with
        totals := { st1.totals with
          dtl_inserts := st1.totals.dtl_inserts + py_truthy_or_zero n } }
    | .exn =>
      { st1 with
        totals := { st1.totals with dtl_skipped := st1.totals.dtl_skipped + 1 } }

/-- One iteration of the `for item in data_items` loop of `run_import`:
count the record, run the header section, run the detail section, then
`line_number += 1`. -/
def run_loop_step (lookup : String → LookupOutcome) (st : LoopState)
    (x : ItemObs) : LoopState :=
  let st1 := { st with
    totals := { st.totals with items_seen := st.totals.items_seen + 1 } }
  let st2 := hdr_phase lookup st1 x
  let st3 := dtl_phase st2 x
  { st3 with line_number := st3.line_number + 1 }

/-- The whole insert loop of `run_import` over the result set. -/
def run_loop (lookup : String → LookupOutcome) (xs : List ItemObs) : LoopState :=
  xs.foldl (run_loop_step lookup) init_loop_state

/-- Number of distinct Header Dedup Keys among the records of a result set. -/
def distinct_dedup_keys (xs : List ItemObs) : Nat :=
  ((xs.map fun x => vendor_case_key x.item).toFinset).card

/-- One HTTP request issued by `run_import` against the remote API. -/
inductive HttpCall where
  | login
  | submitJob
  | pollStatus
deriving DecidableEq

/-- How a `run_import` invocation ends: a normal return of the totals, or one
of the exceptions that unwind the run (connectivity, HTTP/JSON failure at a
given phase, missing token, job failure, job timeout). `pollObsExhausted` is
a modelling artifact for a poll-observation sequence that runs out. -/
inductive RunResult where
  | completed
  | connectError
  | loginHttpError
  | authTokenMissing
  | submitHttpError
  | jobFailed (status_raw : Option String) (message : Option String)
  | jobTimeout (status_raw : Option String)
  | pollObsExhausted
deriving DecidableEq

/-- Environment/oracle of one `run_import` invocation. `dbOk` is whether
`pyodbc.connect` plus the `SELECT 1` round trip of
`open_and_validate_database_connection` succeed. `loginResp` is the outcome
of `request_json` on `POST /login` (payload's `access_token`); `submitResp`
that of `POST /export/orders` (payload's `job_id`); `pollObs` the status-poll
observations; `hdrDb`/`dtlDb` give the insert outcomes for the record at each
result-set position. -/
structure Env where
  dbOk : Bool
  loginResp : Except Unit (Option String)
  submitResp : Except Unit (Option String)
  pollObs : List (Payload × Nat)
  lookup : String → LookupOutcome
  hdrDb : Nat → DbOutcome
  dtlDb : Nat → DbOutcome

/-- Number of `GET /job_status/{id}` requests the polling loop issues on a
given observation sequence (one per iteration until it terminates). -/
def polls_consumed (timeout_seconds : Nat) : List (Payload × Nat) → Nat
  | [] => 0
  | (status_payload, elapsed) :: rest =>
    let status_raw := py_or_opt status_payload.status status_payload.state
    let status_val := py_lower (py_strip (status_raw.getD ""))
    if status_val ∈ terminal_success then 1
    else if status_val ∈ terminal_failure then 1
    else if elapsed > timeout_seconds then 1
    else 1 + polls_consumed timeout_seconds rest

/-- Pair each record of the result set with its insert oracles. -/
def attach_outcomes (env : Env) (items : List Item) : List ItemObs :=
  items.enum.map fun ie => ⟨ie.2, env.hdrDb ie.1, env.dtlDb ie.1⟩

/-- Result of a `run_import` invocation: how it ended, the HTTP requests
issued in order, and the final loop state (the totals the `finally` block
reports live in `loopState.totals`; it is `init_loop_state` whenever the
insert loop was not reached or the result set was empty). -/
structure RunOut where
  result : RunResult
  httpCalls : List HttpCall
  loopState : LoopState

/-- `run_import` from the main script. Order of operations as in the source:
validate database connectivity, `POST /login` and check the token
(`if not auth_token`), `POST /export/orders` (`get_job_id`), poll with the
default 1800 s timeout, then either return zero totals on an empty `data`
array or run the insert loop. -/
def run_import (env : Env) : RunOut :=
  if env.dbOk = false then
    ⟨.connectError, [], init_loop_state⟩
  else
    match env.loginResp with
    | .error _ => ⟨.loginHttpError, [.login], init_loop_state⟩
    | .ok auth_token =>
      if auth_token.getD "" = "" then
        ⟨.authTokenMissing, [.login], init_loop_state⟩
      else
        match env.submitResp with
        | .error _ => ⟨.submitHttpError, [.login, .submitJob], init_loop_state⟩
        | .ok _job_id =>
          let calls := [HttpCall.login, HttpCall.submitJob] ++
            List.replicate (polls_consumed default_timeout_seconds env.pollObs)
              HttpCall.pollStatus
          match wait_for_job_completion default_timeout_seconds env.pollObs with
          | none => ⟨.pollObsExhausted, calls, init_loop_state⟩
          | some (.jobFailed r m) => ⟨.jobFailed r m, calls, init_loop_state⟩
          | some (.timeout r) => ⟨.jobTimeout r, calls, init_loop_state⟩
          | some (.success job_status) =>
            if job_status.data.isEmpty then
              ⟨.completed, calls, init_loop_state⟩
            else
              ⟨.completed, calls,
                run_loop env.lookup (attach_outcomes env job_status.data)⟩

/-- Whether one record contributes a detail skip: empty trimmed SKU (the
`ValueError` path) or a driver exception on its detail insert. -/
def dtl_skip_contrib (x : ItemObs) : Nat :=
  if safe_str x.item.sku = "" then 1
  else match x.dtlDb with
    | .ok _ => 0
    | .exn => 1

/-- Total detail skips a result set produces (position-independent). -/
def dtl_skip_count (xs : List ItemObs) : Nat :=
  (xs.map dtl_skip_contrib).sum

/-- What one record adds to `dtl_inserts`: its rowcount (through the
`inserted if inserted else 0` coercion) when the detail insert runs and
succeeds, 0 otherwise. -/
def dtl_insert_contrib (x : ItemObs) : Int :=
  if safe_str x.item.sku = "" then 0
  else match x.dtlDb with
    | .ok n => py_truthy_or_zero n
    | .exn => 0

/-- Total added to `dtl_inserts` over a result set. -/
def dtl_insert_sum (xs : List ItemObs) : Int :=
  (xs.map dtl_insert_contrib).sum

/-- The detail insert statements executed for a record list whose first
record is processed at the given line number, each with its bound values:
one per record with a non-empty SKU. -/
def expected_dtl_events (line_num : Nat) : List ItemObs → List (Nat × List JVal)
  | [] => []
  | x :: xs =>
    match send_recdtl_values x.item line_num with
    | none => expected_dtl_events (line_num + 1) xs
    | some vals => (line_num, vals) :: expected_dtl_events (line_num + 1) xs

/-- Two records agreeing on everything the header section of the loop reads:
the dedup-key fields, the other header-tuple fields, and the header insert
outcome (the SKU, description, department, quantity and detail outcome are
free). -/
def hdr_agree (x y : ItemObs) : Prop :=
  x.item.case_order_number = y.item.case_order_number ∧
  x.item.effective_date = y.item.effective_date ∧
  x.item.store_number = y.item.store_number ∧
  x.item.approval_date = y.item.approval_date ∧
  x.item.vendor_number = y.item.vendor_number ∧
  x.hdrDb = y.hdrDb

/-- Two loop states agreeing on every component the header section reads or
writes (plus the shared `line_number` and `items_seen`). -/
def hdr_state_agree (s t : LoopState) : Prop :=
  s.totals.hdr_inserts = t.totals.hdr_inserts ∧
  s.totals.hdr_skipped = t.totals.hdr_skipped ∧
  s.totals.items_seen = t.totals.items_seen ∧
  s.seen = t.seen ∧
  s.cache = t.cache ∧
  s.line_number = t.line_number ∧
  s.hdrEvents = t.hdrEvents

/-- Vendor-name oracle answering every query with "no row matched". -/
def no_row_lookup : String → LookupOutcome := fun _ => .norow

theorem wait_skips_nonterminal (t : Nat) (pre l : List (Payload × Nat))
    (hpre : ∀ q ∈ pre, ¬ is_terminal q.1 ∧ q.2 ≤ t) :
    wait_for_job_completion t (pre ++ l) = wait_for_job_completion t l := by
  induction pre with
  | nil => rfl
  | cons q pre ih =>
    obtain ⟨p, e⟩ := q
    have h := hpre (p, e) (by simp)
    have h1 : ¬ status_val_of p ∈ terminal_success := fun hs => h.1 (Or.inl hs)
    have h2 : ¬ status_val_of p ∈ terminal_failure := fun hs => h.1 (Or.inr hs)
    have h3 : ¬ e > t := by omega
    simp only [status_val_of, status_raw_of] at h1 h2
    simp only [List.cons_append, wait_for_job_completion]
    rw [if_neg h1, if_neg h2, if_neg h3]
    exact ih fun q hq => hpre q (by simp [hq])

theorem mem_terminal_failure_not_success {s : String}
    (h : s ∈ terminal_failure) : ¬ s ∈ terminal_success := by
  simp only [terminal_failure, List.mem_cons, List.mem_singleton,
    List.not_mem_nil, or_false] at h
  rcases h with h | h | h | h <;> subst h <;> decide

/-- C3: fed any sequence of status observations, the polling loop returns the
payload of the first status equal (after trim + lowercase) to `finished`,
raises the job-failed error on the first status in the failure set, keeps
polling over any other status whose elapsed time is within the timeout, and
raises the timeout error on a non-terminal status observed after more than
`timeout_seconds` (default 1800) have elapsed. -/
theorem wait_for_job_completion_terminal_spec (t : Nat)
    (pre rest : List (Payload × Nat)) (p : Payload) (e : Nat)
    (hpre : ∀ q ∈ pre, ¬ is_terminal q.1 ∧ q.2 ≤ t) :
    (status_val_of p = "finished" →
      wait_for_job_completion t (pre ++ (p, e) :: rest) = some (.success p)) ∧
    (status_val_of p ∈ terminal_failure →
      wait_for_job_completion t (pre ++ (p, e) :: rest) =
        some (.jobFailed (status_raw_of p) p.message)) ∧
    (¬ is_terminal p → e > t →
      wait_for_job_completion t (pre ++ (p, e) :: rest) =
        some (.timeout (status_raw_of p))) ∧
    default_timeout_seconds = 1800 := by
  rw [wait_skips_nonterminal t pre _ hpre]
  refine ⟨?_, ?_, ?_, rfl⟩
  · intro hfin
    have hmem : status_val_of p ∈ terminal_success := by
      simp [terminal_success, hfin]
    simp only [status_val_of, status_raw_of] at hmem
    simp only [wait_for_job_completion]
    rw [if_pos hmem]
  · intro hfail
    have h1 : ¬ status_val_of p ∈ terminal_success :=
      mem_terminal_failure_not_success hfail
    have h2 := hfail
    simp only [status_val_of, status_raw_of] at h1 h2
    simp only [wait_for_job_completion]
    rw [if_neg h1, if_pos h2]
    rfl
  · intro hnt he
    have h1 : ¬ status_val_of p ∈ terminal_success := fun hs => hnt (Or.inl hs)
    have h2 : ¬ status_val_of p ∈ terminal_failure := fun hs => hnt (Or.inr hs)
    simp only [status_val_of, status_raw_of] at h1 h2
    simp only [wait_for_job_completion]
    rw [if_neg h1, if_neg h2, if_pos he]
    rfl

theorem wait_for_job_completion_terminal_spec_witness :
    wait_for_job_completion 1800
      ([(⟨some "queued", none, none, []⟩, 0)] ++
        (⟨some "  Finished ", none, some "ok", []⟩, 5) :: []) =
      some (.success ⟨some "  Finished ", none, some "ok", []⟩) :=
  (wait_for_job_completion_terminal_spec 1800
      [(⟨some "queued", none, none, []⟩, 0)] []
      ⟨some "  Finished ", none, some "ok", []⟩ 5 (by decide)).1 (by decide)

/-- C10: the polling loops of the three script variants are equivalent —
on the same status payloads and the same elapsed-time observations they
return the same payload on success and fail identically (same
terminal-status classification, same timeout condition). -/
theorem wait_for_job_completion_variants_agree (t : Nat)
    (obs : List (Payload × Nat)) :
    WorkingVersion.wait_for_job_completion t obs = wait_for_job_completion t obs ∧
    NW.wait_for_job_completion t obs = wait_for_job_completion t obs := by
  induction obs with
  | nil => exact ⟨rfl, rfl⟩
  | cons q rest ih =>
    obtain ⟨p, e⟩ := q
    constructor
    · simp only [WorkingVersion.wait_for_job_completion, wait_for_job_completion]
      split_ifs <;> first | rfl | exact ih.1
    · simp only [NW.wait_for_job_completion, wait_for_job_completion]
      split_ifs <;> first | rfl | exact ih.2

theorem hdr_phase_dtl_inserts (lookup : String → LookupOutcome) (st : LoopState)
    (x : ItemObs) :
    (hdr_phase lookup st x).totals.dtl_inserts = st.totals.dtl_inserts := by
  by_cases h : vendor_case_key x.item ∉ st.seen
  · cases hdb : x.hdrDb <;> simp [hdr_phase, h, hdb]
  · simp [hdr_phase, h]

theorem hdr_phase_dtl_skipped (lookup : String → LookupOutcome) (st : LoopState)
    (x : ItemObs) :
    (hdr_phase lookup st x).totals.dtl_skipped = st.totals.dtl_skipped := by
  by_cases h : vendor_case_key x.item ∉ st.seen
  · cases hdb : x.hdrDb <;> simp [hdr_phase, h, hdb]
  · simp [hdr_phase, h]

theorem hdr_phase_items_seen (lookup : String → LookupOutcome) (st : LoopState)
    (x : ItemObs) :
    (hdr_phase lookup st x).totals.items_seen = st.totals.items_seen := by
  by_cases h : vendor_case_key x.item ∉ st.seen
  · cases hdb : x.hdrDb <;> simp [hdr_phase, h, hdb]
  · simp [hdr_phase, h]

theorem hdr_phase_line_number (lookup : String → LookupOutcome) (st : LoopState)
    (x : ItemObs) :
    (hdr_phase lookup st x).line_number = st.line_number := by
  by_cases h : vendor_case_key x.item ∉ st.seen
  · cases hdb : x.hdrDb <;> simp [hdr_phase, h, hdb]
  · simp [hdr_phase, h]

theorem hdr_phase_dtlEvents (lookup : String → LookupOutcome) (st : LoopState)
    (x : ItemObs) :
    (hdr_phase lookup st x).dtlEvents = st.dtlEvents := by
  by_cases h : vendor_case_key x.item ∉ st.seen
  · cases hdb : x.hdrDb <;> simp [hdr_phase, h, hdb]
  · simp [hdr_phase, h]

theorem dtl_phase_hdr_inserts (st : LoopState) (x : ItemObs) :
    (dtl_phase st x).totals.hdr_inserts = st.totals.hdr_inserts := by
  cases hs : send_recdtl_values x.item st.line_number with
  | none => simp [dtl_phase, hs]
  | some vals => cases hd : x.dtlDb <;> simp [dtl_phase, hs, hd]

theorem dtl_phase_hdr_skipped (st : LoopState) (x : ItemObs) :
    (dtl_phase st x).totals.hdr_skipped = st.totals.hdr_skipped := by
  cases hs : send_recdtl_values x.item st.line_number with
  | none => simp [dtl_phase, hs]
  | some vals => cases hd : x.dtlDb <;> simp [dtl_phase, hs, hd]

theorem dtl_phase_items_seen (st : LoopState) (x : ItemObs) :
    (dtl_phase st x).totals.items_seen = st.totals.items_seen := by
  cases hs : send_recdtl_values x.item st.line_number with
  | none => simp [dtl_phase, hs]
  | some vals => cases hd : x.dtlDb <;> simp [dtl_phase, hs, hd]

theorem dtl_phase_seen (st : LoopState) (x : ItemObs) :
    (dtl_phase st x).seen = st.seen := by
  cases hs : send_recdtl_values x.item st.line_number with
  | none => simp [dtl_phase, hs]
  | some vals => cases hd : x.dtlDb <;> simp [dtl_phase, hs, hd]

theorem dtl_phase_cache (st : LoopState) (x : ItemObs) :
    (dtl_phase st x).cache = st.cache := by
  cases hs : send_recdtl_values x.item st.line_number with
  | none => simp [dtl_phase, hs]
  | some vals => cases hd : x.dtlDb <;> simp [dtl_phase, hs, hd]

theorem dtl_phase_line_number (st : LoopState) (x : ItemObs) :
    (dtl_phase st x).line_number = st.line_number := by
  cases hs : send_recdtl_values x.item st.line_number with
  | none => simp [dtl_phase, hs]
  | some vals => cases hd : x.dtlDb <;> simp [dtl_phase, hs, hd]

theorem dtl_phase_hdrEvents (st : LoopState) (x : ItemObs) :
    (dtl_phase st x).hdrEvents = st.hdrEvents := by
  cases hs : send_recdtl_values x.item st.line_number with
  | none => simp [dtl_phase, hs]
  | some vals => cases hd : x.dtlDb <;> simp [dtl_phase, hs, hd]

theorem send_recdtl_values_none_iff (item : Item) (line_num : Nat) :
    send_recdtl_values item line_num = none ↔ safe_str item.sku = "" := by
  simp only [send_recdtl_values]
  split <;> simp_all

theorem run_loop_step_counts (lookup : String → LookupOutcome) (st : LoopState)
    (x : ItemObs) :
    (run_loop_step lookup st x).totals.items_seen = st.totals.items_seen + 1 ∧
    (run_loop_step lookup st x).line_number = st.line_number + 1 := by
  simp only [run_loop_step]
  constructor
  · rw [dtl_phase_items_seen, hdr_phase_items_seen]
  · rw [dtl_phase_line_number, hdr_phase_line_number]

theorem run_loop_fold_counts (lookup : String → LookupOutcome)
    (xs : List ItemObs) : ∀ st : LoopState,
    (xs.foldl (run_loop_step lookup) st).totals.items_seen
      = st.totals.items_seen + xs.length ∧
    (xs.foldl (run_loop_step lookup) st).line_number
      = st.line_number + xs.length := by
  induction xs with
  | nil => intro st; simp
  | cons x xs ih =>
    intro st
    rw [List.foldl_cons]
    refine ⟨?_, ?_⟩
    · rw [(ih _).1, (run_loop_step_counts lookup st x).1]
      simp [Nat.add_assoc, Nat.add_comm 1 xs.length]
    · rw [(ih _).2, (run_loop_step_counts lookup st x).2]
      simp [Nat.add_assoc, Nat.add_comm 1 xs.length]

theorem run_loop_step_dtl (lookup : String → LookupOutcome) (st : LoopState)
    (x : ItemObs) :
    (run_loop_step lookup st x).totals.dtl_skipped
      = st.totals.dtl_skipped + dtl_skip_contrib x ∧
    (run_loop_step lookup st x).totals.dtl_inserts
      = st.totals.dtl_inserts + dtl_insert_contrib x ∧
    (run_loop_step lookup st x).dtlEvents
      = st.dtlEvents ++
        (match send_recdtl_values x.item st.line_number with
          | none => []
          | some vals => [(st.line_number, vals)]) := by
  simp only [run_loop_step]
  have hline := hdr_phase_line_number lookup
    { st with totals := { st.totals with items_seen := st.totals.items_seen + 1 } } x
  have hev := hdr_phase_dtlEvents lookup
    { st with totals := { st.totals with items_seen := st.totals.items_seen + 1 } } x
  have hsk := hdr_phase_dtl_skipped lookup
    { st with totals := { st.totals with items_seen := st.totals.items_seen + 1 } } x
  have hin := hdr_phase_dtl_inserts lookup
    { st with totals := { st.totals with items_seen := st.totals.items_seen + 1 } } x
  by_cases hsku : safe_str x.item.sku = ""
  · have hnone : send_recdtl_values x.item
        (hdr_phase lookup { st with totals :=
          { st.totals with items_seen := st.totals.items_seen + 1 } } x).line_number
        = none := by
      rw [send_recdtl_values_none_iff]; exact hsku
    have hnone0 : send_recdtl_values x.item st.line_number = none := by
      rw [send_recdtl_values_none_iff]; exact hsku
    simp [dtl_phase, hnone, hnone0, hsk, hin, hev, dtl_skip_contrib,
      dtl_insert_contrib, hsku]
  · rcases hsome : send_recdtl_values x.item st.line_number with _ | vals
    · rw [send_recdtl_values_none_iff] at hsome; exact absurd hsome hsku
    · have hsome2 : send_recdtl_values x.item
          (hdr_phase lookup { st with totals :=
            { st.totals with items_seen := st.totals.items_seen + 1 } } x).line_number
          = some vals := by rw [hline]; exact hsome
      cases hd : x.dtlDb <;>
        simp [dtl_phase, hsome, hsome2, hline, hsk, hin, hev, dtl_skip_contrib,
          dtl_insert_contrib, hsku, hd]

theorem run_loop_fold_dtl (lookup : String → LookupOutcome)
    (xs : List ItemObs) : ∀ st : LoopState,
    (xs.foldl (run_loop_step lookup) st).totals.dtl_skipped
      = st.totals.dtl_skipped + dtl_skip_count xs ∧
    (xs.foldl (run_loop_step lookup) st).totals.dtl_inserts
      = st.totals.dtl_inserts + dtl_insert_sum xs ∧
    (xs.foldl (run_loop_step lookup) st).dtlEvents
      = st.dtlEvents ++ expected_dtl_events st.line_number xs := by
  induction xs with
  | nil => intro st; simp [dtl_skip_count, dtl_insert_sum, expected_dtl_events]
  | cons x xs ih =>
    intro st
    rw [List.foldl_cons]
    obtain ⟨h1, h2, h3⟩ := run_loop_step_dtl lookup st x
    obtain ⟨g1, g2, g3⟩ := ih (run_loop_step lookup st x)
    refine ⟨?_, ?_, ?_⟩
    · rw [g1, h1]
      simp [dtl_skip_count, Nat.add_assoc]
    · rw [g2, h2]
      simp [dtl_insert_sum, Int.add_assoc]
    · rw [g3, h3, (run_loop_step_counts lookup st x).2]
      rcases hs : send_recdtl_values x.item st.line_number with _ | vals <;>
        simp [expected_dtl_events, hs, List.append_assoc]

theorem run_loop_step_hdr_seen (lookup : String → LookupOutcome) (st : LoopState)
    (x : ItemObs) (hk : vendor_case_key x.item ∈ st.seen) :
    (run_loop_step lookup st x).seen = st.seen ∧
    (run_loop_step lookup st x).cache = st.cache ∧
    (run_loop_step lookup st x).totals.hdr_inserts = st.totals.hdr_inserts ∧
    (run_loop_step lookup st x).totals.hdr_skipped = st.totals.hdr_skipped ∧
    (run_loop_step lookup st x).hdrEvents = st.hdrEvents := by
  simp only [run_loop_step]
  rw [dtl_phase_seen, dtl_phase_cache, dtl_phase_hdr_inserts,
    dtl_phase_hdr_skipped, dtl_phase_hdrEvents]
  have : ¬ vendor_case_key x.item ∉
      ({ st with totals := { st.totals with
        items_seen := st.totals.items_seen + 1 } } : LoopState).seen := by
    simpa using hk
  simp [hdr_phase, this]

theorem run_loop_step_hdr_exn (lookup : String → LookupOutcome) (st : LoopState)
    (x : ItemObs) (hk : vendor_case_key x.item ∉ st.seen) (hx : x.hdrDb = .exn) :
    (run_loop_step lookup st x).seen = st.seen ∧
    (run_loop_step lookup st x).cache =
      (get_vendor_name_cached lookup x.item.vendor_number st.cache).cache ∧
    (run_loop_step lookup st x).totals.hdr_inserts = st.totals.hdr_inserts ∧
    (run_loop_step lookup st x).totals.hdr_skipped = st.totals.hdr_skipped + 1 ∧
    (run_loop_step lookup st x).hdrEvents =
      st.hdrEvents ++ [(st.line_number, send_rechdr_values x.item
        (get_vendor_name_cached lookup x.item.vendor_number st.cache).value)] := by
  simp only [run_loop_step]
  rw [dtl_phase_seen, dtl_phase_cache, dtl_phase_hdr_inserts,
    dtl_phase_hdr_skipped, dtl_phase_hdrEvents]
  simp [hdr_phase, hk, hx]

theorem run_loop_step_hdr_ok (lookup : String → LookupOutcome) (st : LoopState)
    (x : ItemObs) (n : Int) (hk : vendor_case_key x.item ∉ st.seen)
    (hx : x.hdrDb = .ok n) :
    (run_loop_step lookup st x).seen = insert (vendor_case_key x.item) st.seen ∧
    (run_loop_step lookup st x).cache =
      (get_vendor_name_cached lookup x.item.vendor_number st.cache).cache ∧
    (run_loop_step lookup st x).totals.hdr_inserts
      = st.totals.hdr_inserts + py_truthy_or_zero n ∧
    (run_loop_step lookup st x).totals.hdr_skipped = st.totals.hdr_skipped ∧
    (run_loop_step lookup st x).hdrEvents =
      st.hdrEvents ++ [(st.line_number, send_rechdr_values x.item
        (get_vendor_name_cached lookup x.item.vendor_number st.cache).value)] := by
  simp only [run_loop_step]
  rw [dtl_phase_seen, dtl_phase_cache, dtl_phase_hdr_inserts,
    dtl_phase_hdr_skipped, dtl_phase_hdrEvents]
  simp [hdr_phase, hk, hx]

theorem run_loop_fold_all_hdr_exn (lookup : String → LookupOutcome)
    (xs : List ItemObs) (h : ∀ x ∈ xs, x.hdrDb = .exn) :
    ∀ st : LoopState, st.seen = ∅ →
      (xs.foldl (run_loop_step lookup) st).seen = ∅ ∧
      (xs.foldl (run_loop_step lookup) st).totals.hdr_skipped
        = st.totals.hdr_skipped + xs.length ∧
      (xs.foldl (run_loop_step lookup) st).hdrEvents.length
        = st.hdrEvents.length + xs.length ∧
      (xs.foldl (run_loop_step lookup) st).totals.hdr_inserts
        = st.totals.hdr_inserts := by
  induction xs with
  | nil => intro st hst; simpa using hst
  | cons x xs ih =>
    intro st hst
    rw [List.foldl_cons]
    have hk : vendor_case_key x.item ∉ st.seen := by rw [hst]; simp
    obtain ⟨e1, _, e3, e4, e5⟩ :=
      run_loop_step_hdr_exn lookup st x hk (h x (by simp))
    obtain ⟨g1, g2, g3, g4⟩ := ih (fun y hy => h y (by simp [hy]))
      (run_loop_step lookup st x) (by rw [e1, hst])
    refine ⟨g1, ?_, ?_, ?_⟩
    · rw [g2, e4, List.length_cons]; omega
    · rw [g3, e5, List.length_append, List.length_cons]
      simp; omega
    · rw [g4, e3]

theorem run_loop_fold_all_hdr_ok1 (lookup : String → LookupOutcome)
    (xs : List ItemObs) (h : ∀ x ∈ xs, x.hdrDb = .ok 1) :
    ∀ st : LoopState,
      (xs.foldl (run_loop_step lookup) st).seen
        = st.seen ∪ (xs.map fun x => vendor_case_key x.item).toFinset ∧
      (xs.foldl (run_loop_step lookup) st).totals.hdr_inserts
          + (st.seen.card : Int)
        = st.totals.hdr_inserts
          + (((xs.foldl (run_loop_step lookup) st).seen.card : Int)) ∧
      (xs.foldl (run_loop_step lookup) st).totals.hdr_skipped
        = st.totals.hdr_skipped := by
  induction xs with
  | nil => intro st; simp
  | cons x xs ih =>
    intro st
    rw [List.foldl_cons]
    by_cases hk : vendor_case_key x.item ∈ st.seen
    · obtain ⟨e1, _, e3, e4, _⟩ := run_loop_step_hdr_seen lookup st x hk
      obtain ⟨g1, g2, g3⟩ := ih (fun y hy => h y (by simp [hy]))
        (run_loop_step lookup st x)
      refine ⟨?_, ?_, ?_⟩
      · rw [g1, e1, List.map_cons, List.toFinset_cons, Finset.union_insert,
          Finset.insert_eq_self.2]
        exact Finset.mem_union_left _ hk
      · rw [e1, e3] at g2
        exact g2
      · rw [g3, e4]
    · obtain ⟨e1, _, e3, e4, _⟩ :=
        run_loop_step_hdr_ok lookup st x 1 hk (h x (by simp))
      obtain ⟨g1, g2, g3⟩ := ih (fun y hy => h y (by simp [hy]))
        (run_loop_step lookup st x)
      have hcard : (insert (vendor_case_key x.item) st.seen).card
          = st.seen.card + 1 := Finset.card_insert_of_not_mem hk
      refine ⟨?_, ?_, ?_⟩
      · rw [g1, e1, List.map_cons, List.toFinset_cons, Finset.union_insert,
          Finset.insert_union]
      · rw [e1, e3, hcard] at g2
        have hpy : py_truthy_or_zero (1 : Int) = 1 := by decide
        rw [hpy] at g2
        push_cast at g2 ⊢
        omega
      · rw [g3, e4]

theorem run_loop_step_hdr_agree (lookup : String → LookupOutcome)
    (s t : LoopState) (x y : ItemObs) (hxy : hdr_agree x y)
    (hst : hdr_state_agree s t) :
    hdr_state_agree (run_loop_step lookup s x) (run_loop_step lookup t y) := by
  obtain ⟨a1, a2, a3, a4, a5, a6⟩ := hxy
  obtain ⟨b1, b2, b3, b4, b5, b6, b7⟩ := hst
  have hkey : vendor_case_key y.item = vendor_case_key x.item := by
    unfold vendor_case_key; rw [a5, a1]
  have hvals : ∀ vn, send_rechdr_values y.item vn = send_rechdr_values x.item vn := by
    intro vn; unfold send_rechdr_values; rw [a1, a2, a3, a4, a5]
  have hseen : (run_loop_step lookup s x).totals.items_seen
      = (run_loop_step lookup t y).totals.items_seen := by
    rw [(run_loop_step_counts lookup s x).1, (run_loop_step_counts lookup t y).1, b3]
  have hline : (run_loop_step lookup s x).line_number
      = (run_loop_step lookup t y).line_number := by
    rw [(run_loop_step_counts lookup s x).2, (run_loop_step_counts lookup t y).2, b6]
  by_cases hk : vendor_case_key x.item ∈ s.seen
  · have hk2 : vendor_case_key y.item ∈ t.seen := by rw [hkey, ← b4]; exact hk
    obtain ⟨e1, e2, e3, e4, e5⟩ := run_loop_step_hdr_seen lookup s x hk
    obtain ⟨f1, f2, f3, f4, f5⟩ := run_loop_step_hdr_seen lookup t y hk2
    exact ⟨by rw [e3, f3, b1], by rw [e4, f4, b2], hseen,
      by rw [e1, f1, b4], by rw [e2, f2, b5], hline, by rw [e5, f5, b7]⟩
  · have hk2 : vendor_case_key y.item ∉ t.seen := by rw [hkey, ← b4]; exact hk
    cases hdb : x.hdrDb with
    | exn =>
      have hdb2 : y.hdrDb = .exn := by rw [← a6]; exact hdb
      obtain ⟨e1, e2, e3, e4, e5⟩ := run_loop_step_hdr_exn lookup s x hk hdb
      obtain ⟨f1, f2, f3, f4, f5⟩ := run_loop_step_hdr_exn lookup t y hk2 hdb2
      refine ⟨by rw [e3, f3, b1], by rw [e4, f4, b2], hseen,
        by rw [e1, f1, b4], ?_, hline, ?_⟩
      · rw [e2, f2, a5, b5]
      · rw [e5, f5, b7, b6, hvals, a5, b5]
    | ok n =>
      have hdb2 : y.hdrDb = .ok n := by rw [← a6]; exact hdb
      obtain ⟨e1, e2, e3, e4, e5⟩ := run_loop_step_hdr_ok lookup s x n hk hdb
      obtain ⟨f1, f2, f3, f4, f5⟩ := run_loop_step_hdr_ok lookup t y n hk2 hdb2
      refine ⟨by rw [e3, f3, b1], by rw [e4, f4, b2], hseen,
        by rw [e1, f1, b4, hkey], ?_, hline, ?_⟩
      · rw [e2, f2, a5, b5]
      · rw [e5, f5, b7, b6, hvals, a5, b5]

theorem hdr_agree_refl (x : ItemObs) : hdr_agree x x :=
  ⟨rfl, rfl, rfl, rfl, rfl, rfl⟩

theorem forall₂_hdr_agree_append {as bs cs ds : List ItemObs}
    (h1 : List.Forall₂ hdr_agree as bs) (h2 : List.Forall₂ hdr_agree cs ds) :
    List.Forall₂ hdr_agree (as ++ cs) (bs ++ ds) := by
  induction h1 with
  | nil => simpa using h2
  | cons hxy hrest ih => exact List.Forall₂.cons hxy ih

theorem run_loop_fold_hdr_agree (lookup : String → LookupOutcome)
    {xs ys : List ItemObs} (hf : List.Forall₂ hdr_agree xs ys) :
    ∀ s t : LoopState, hdr_state_agree s t →
      hdr_state_agree (xs.foldl (run_loop_step lookup) s)
        (ys.foldl (run_loop_step lookup) t) := by
  induction hf with
  | nil => intro s t hst; exact hst
  | cons hxy hrest ih =>
    intro s t hst
    rw [List.foldl_cons, List.foldl_cons]
    exact ih _ _ (run_loop_step_hdr_agree lookup s t _ _ hxy hst)

theorem expected_dtl_events_append (as bs : List ItemObs) :
    ∀ line_num : Nat, expected_dtl_events line_num (as ++ bs)
      = expected_dtl_events line_num as
        ++ expected_dtl_events (line_num + as.length) bs := by
  induction as with
  | nil => intro ln; simp [expected_dtl_events]
  | cons a as ih =>
    intro ln
    rcases hs : send_recdtl_values a.item ln with _ | vals <;>
      simp [expected_dtl_events, hs, ih (ln + 1), Nat.add_assoc,
        Nat.add_comm 1 as.length]

theorem expected_dtl_events_line_bounds (xs : List ItemObs) :
    ∀ line_num : Nat, ∀ e ∈ expected_dtl_events line_num xs,
      line_num ≤ e.1 ∧ e.1 < line_num + xs.length := by
  induction xs with
  | nil => intro ln e he; simp [expected_dtl_events] at he
  | cons x xs ih =>
    intro ln e he
    rcases hs : send_recdtl_values x.item ln with _ | vals <;>
      rw [expected_dtl_events, hs] at he
    · have := ih (ln + 1) e he
      simp [List.length_cons]; omega
    · rcases List.mem_cons.1 he with h | h
      · subst h; simp
      · have := ih (ln + 1) e h
        simp [List.length_cons]; omega

/-- C1 counterexample: with two records sharing the dedup key `"V1P1"` and a
header insert that always fails, the loop attempts the header insert twice
for one distinct key, and the key is not marked as seen after the failed
insert — refuting both halves of the claim. -/
theorem header_failed_key_retried_counterexample :
    (run_loop no_row_lookup
      [⟨⟨.jstr "P1", .jnull, .jnull, .jnull, .jstr "V1", .jnull, .jstr "S1",
          .jnull, .jnull⟩, .exn, .ok 1⟩,
       ⟨⟨.jstr "P1", .jnull, .jnull, .jnull, .jstr "V1", .jnull, .jstr "S2",
          .jnull, .jnull⟩, .exn, .ok 1⟩]).hdrEvents.map Prod.fst = [1, 2] ∧
    distinct_dedup_keys
      [⟨⟨.jstr "P1", .jnull, .jnull, .jnull, .jstr "V1", .jnull, .jstr "S1",
          .jnull, .jnull⟩, .exn, .ok 1⟩,
       ⟨⟨.jstr "P1", .jnull, .jnull, .jnull, .jstr "V1", .jnull, .jstr "S2",
          .jnull, .jnull⟩, .exn, .ok 1⟩] = 1 ∧
    vendor_case_key ⟨.jstr "P1", .jnull, .jnull, .jnull, .jstr "V1", .jnull,
        .jstr "S1", .jnull, .jnull⟩
      ∉ (run_loop no_row_lookup
        [⟨⟨.jstr "P1", .jnull, .jnull, .jnull, .jstr "V1", .jnull, .jstr "S1",
            .jnull, .jnull⟩, .exn, .ok 1⟩]).seen := by
  decide

/-- C1 (amended): a record's dedup key is marked as seen only when its header
insert succeeds. When every header insert fails, no key is ever marked seen,
every record triggers its own header insert attempt (one per record, not one
per distinct key), every attempt counts as a header skip, and nothing is
added to `hdr_inserts`. -/
theorem failed_header_key_not_marked_seen (lookup : String → LookupOutcome)
    (xs : List ItemObs) (h : ∀ x ∈ xs, x.hdrDb = .exn) :
    (run_loop lookup xs).seen = ∅ ∧
    (run_loop lookup xs).hdrEvents.length = xs.length ∧
    (run_loop lookup xs).totals.hdr_skipped = xs.length ∧
    (run_loop lookup xs).totals.hdr_inserts = 0 := by
  obtain ⟨g1, g2, g3, g4⟩ :=
    run_loop_fold_all_hdr_exn lookup xs h init_loop_state rfl
  unfold run_loop
  exact ⟨g1, by simpa [init_loop_state] using g3,
    by simpa [init_loop_state] using g2, by simpa [init_loop_state] using g4⟩

theorem failed_header_key_not_marked_seen_witness :
    (∀ x ∈ [(⟨⟨.jstr "P7", .jnull, .jnull, .jnull, .jstr "V7", .jnull,
        .jstr "S7", .jnull, .jnull⟩, .exn, .ok 1⟩ : ItemObs),
      ⟨⟨.jstr "P7", .jnull, .jnull, .jnull, .jstr "V7", .jnull, .jstr "S8",
        .jnull, .jnull⟩, .exn, .ok 1⟩], x.hdrDb = .exn) ∧
    (run_loop no_row_lookup
      [⟨⟨.jstr "P7", .jnull, .jnull, .jnull, .jstr "V7", .jnull, .jstr "S7",
          .jnull, .jnull⟩, .exn, .ok 1⟩,
       ⟨⟨.jstr "P7", .jnull, .jnull, .jnull, .jstr "V7", .jnull, .jstr "S8",
          .jnull, .jnull⟩, .exn, .ok 1⟩]).seen = ∅ :=
  ⟨by decide, (failed_header_key_not_marked_seen no_row_lookup _ (by decide)).1⟩

/-- C2 counterexample: first record's header insert fails, a second record
with the same dedup key then succeeds; `hdr_inserts + hdr_skipped = 2` while
only one distinct dedup key was encountered. -/
theorem hdr_counters_vs_distinct_keys_counterexample :
    ¬ ((run_loop no_row_lookup
        [⟨⟨.jstr "P1", .jnull, .jnull, .jnull, .jstr "V1", .jnull, .jstr "S1",
            .jnull, .jnull⟩, .exn, .ok 1⟩,
         ⟨⟨.jstr "P1", .jnull, .jnull, .jnull, .jstr "V1", .jnull, .jstr "S2",
            .jnull, .jnull⟩, .ok 1, .ok 1⟩]).totals.hdr_inserts
      + ((run_loop no_row_lookup
        [⟨⟨.jstr "P1", .jnull, .jnull, .jnull, .jstr "V1", .jnull, .jstr "S1",
            .jnull, .jnull⟩, .exn, .ok 1⟩,
         ⟨⟨.jstr "P1", .jnull, .jnull, .jnull, .jstr "V1", .jnull, .jstr "S2",
            .jnull, .jnull⟩, .ok 1, .ok 1⟩]).totals.hdr_skipped : Int)
      = (distinct_dedup_keys
        [⟨⟨.jstr "P1", .jnull, .jnull, .jnull, .jstr "V1", .jnull, .jstr "S1",
            .jnull, .jnull⟩, .exn, .ok 1⟩,
         ⟨⟨.jstr "P1", .jnull, .jnull, .jnull, .jstr "V1", .jnull, .jstr "S2",
            .jnull, .jnull⟩, .ok 1, .ok 1⟩] : Int)) := by
  decide

/-- C2 (amended): when every header insert attempt succeeds and reports one
affected row, `hdr_inserts + hdr_skipped` equals the number of distinct dedup
keys encountered (and `hdr_skipped = 0`); with failing header inserts the sum
can exceed that count, because a failed key is attempted again on a later
record with the same key. -/
theorem hdr_counters_eq_distinct_keys_when_all_ok
    (lookup : String → LookupOutcome) (xs : List ItemObs)
    (h : ∀ x ∈ xs, x.hdrDb = .ok 1) :
    (run_loop lookup xs).totals.hdr_inserts
      + ((run_loop lookup xs).totals.hdr_skipped : Int)
      = (distinct_dedup_keys xs : Int) ∧
    (run_loop lookup xs).totals.hdr_skipped = 0 := by
  obtain ⟨g1, g2, g3⟩ := run_loop_fold_all_hdr_ok1 lookup xs h init_loop_state
  unfold run_loop
  have h3 : (List.foldl (run_loop_step lookup) init_loop_state xs).totals.hdr_skipped = 0 := by
    simpa [init_loop_state] using g3
  refine ⟨?_, h3⟩
  rw [h3, g1] at *
  rw [g1] at g2
  simp only [init_loop_state, Finset.empty_union, Finset.card_empty,
    Nat.cast_zero, add_zero, Int.add_zero] at g2 ⊢
  rw [g2]
  simp [distinct_dedup_keys]

theorem hdr_counters_eq_distinct_keys_when_all_ok_witness :
    (∀ x ∈ [(⟨⟨.jstr "P1", .jnull, .jnull, .jnull, .jstr "V1", .jnull,
        .jstr "S1", .jnull, .jnull⟩, .ok 1, .ok 1⟩ : ItemObs),
      ⟨⟨.jstr "P1", .jnull, .jnull, .jnull, .jstr "V1", .jnull, .jstr "S2",
        .jnull, .jnull⟩, .ok 1, .ok 1⟩,
      ⟨⟨.jstr "P2", .jnull, .jnull, .jnull, .jstr "V1", .jnull, .jstr "S3",
        .jnull, .jnull⟩, .ok 1, .ok 1⟩], x.hdrDb = .ok 1) ∧
    (run_loop no_row_lookup
      [⟨⟨.jstr "P1", .jnull, .jnull, .jnull, .jstr "V1", .jnull, .jstr "S1",
          .jnull, .jnull⟩, .ok 1, .ok 1⟩,
       ⟨⟨.jstr "P1", .jnull, .jnull, .jnull, .jstr "V1", .jnull, .jstr "S2",
          .jnull, .jnull⟩, .ok 1, .ok 1⟩,
       ⟨⟨.jstr "P2", .jnull, .jnull, .jnull, .jstr "V1", .jnull, .jstr "S3",
          .jnull, .jnull⟩, .ok 1, .ok 1⟩]).totals.hdr_inserts
      + ((run_loop no_row_lookup
        [⟨⟨.jstr "P1", .jnull, .jnull, .jnull, .jstr "V1", .jnull, .jstr "S1",
            .jnull, .jnull⟩, .ok 1, .ok 1⟩,
         ⟨⟨.jstr "P1", .jnull, .jnull, .jnull, .jstr "V1", .jnull, .jstr "S2",
            .jnull, .jnull⟩, .ok 1, .ok 1⟩,
         ⟨⟨.jstr "P2", .jnull, .jnull, .jnull, .jstr "V1", .jnull, .jstr "S3",
            .jnull, .jnull⟩, .ok 1, .ok 1⟩]).totals.hdr_skipped : Int)
      = (distinct_dedup_keys
        [⟨⟨.jstr "P1", .jnull, .jnull, .jnull, .jstr "V1", .jnull, .jstr "S1",
            .jnull, .jnull⟩, .ok 1, .ok 1⟩,
         ⟨⟨.jstr "P1", .jnull, .jnull, .jnull, .jstr "V1", .jnull, .jstr "S2",
            .jnull, .jnull⟩, .ok 1, .ok 1⟩,
         ⟨⟨.jstr "P2", .jnull, .jnull, .jnull, .jstr "V1", .jnull, .jstr "S3",
            .jnull, .jnull⟩, .ok 1, .ok 1⟩] : Int) :=
  ⟨by decide,
    (hdr_counters_eq_distinct_keys_when_all_ok no_row_lookup _ (by decide)).1⟩

theorem dtl_contrib_partition (xs : List ItemObs)
    (h : ∀ x ∈ xs, x.dtlDb = .exn ∨ x.dtlDb = .ok 1) :
    dtl_insert_sum xs + (dtl_skip_count xs : Int) = (xs.length : Int) := by
  induction xs with
  | nil => simp [dtl_insert_sum, dtl_skip_count]
  | cons x xs ih =>
    have ih2 := ih fun y hy => h y (by simp [hy])
    have hx : dtl_insert_contrib x + (dtl_skip_contrib x : Int) = 1 := by
      unfold dtl_insert_contrib dtl_skip_contrib
      by_cases hs : safe_str x.item.sku = ""
      · simp [hs]
      · rcases h x (by simp) with hd | hd <;>
          simp [hs, hd, py_truthy_or_zero]
    simp only [dtl_insert_sum, dtl_skip_count, List.map_cons, List.sum_cons,
      List.length_cons] at ih2 ⊢
    push_cast at ih2 hx ⊢
    omega

/-- C6: for every result set (whatever mix of empty SKUs and driver failures,
provided a successful single-row detail insert reports rowcount 1),
`dtl_inserts + dtl_skipped` equals the `items_seen` counter, which equals the
number of records in the result set. -/
theorem detail_counters_partition (lookup : String → LookupOutcome)
    (xs : List ItemObs)
    (h : ∀ x ∈ xs, x.dtlDb = .exn ∨ x.dtlDb = .ok 1) :
    (run_loop lookup xs).totals.dtl_inserts
      + ((run_loop lookup xs).totals.dtl_skipped : Int)
      = ((run_loop lookup xs).totals.items_seen : Int) ∧
    (run_loop lookup xs).totals.items_seen = xs.length := by
  obtain ⟨d1, d2, _⟩ := run_loop_fold_dtl lookup xs init_loop_state
  have c1 := (run_loop_fold_counts lookup xs init_loop_state).1
  unfold run_loop
  have hseen : (List.foldl (run_loop_step lookup) init_loop_state xs).totals.items_seen
      = xs.length := by
    simpa [init_loop_state] using c1
  refine ⟨?_, hseen⟩
  rw [d2, d1, hseen]
  simp only [init_loop_state, zero_add, Nat.zero_add]
  exact dtl_contrib_partition xs h

theorem detail_counters_partition_witness :
    (∀ x ∈ [(⟨⟨.jstr "P1", .jnull, .jnull, .jnull, .jstr "V1", .jnull,
        .jstr "S1", .jnull, .jnull⟩, .ok 1, .ok 1⟩ : ItemObs),
      ⟨⟨.jstr "P1", .jnull, .jnull, .jnull, .jstr "V1", .jnull, .jnull,
        .jnull, .jnull⟩, .ok 1, .ok 1⟩,
      ⟨⟨.jstr "P2", .jnull, .jnull, .jnull, .jstr "V2", .jnull, .jstr "S3",
        .jnull, .jnull⟩, .ok 1, .exn⟩],
      x.dtlDb = .exn ∨ x.dtlDb = .ok 1) ∧
    (run_loop no_row_lookup
      [⟨⟨.jstr "P1", .jnull, .jnull, .jnull, .jstr "V1", .jnull, .jstr "S1",
          .jnull, .jnull⟩, .ok 1, .ok 1⟩,
       ⟨⟨.jstr "P1", .jnull, .jnull, .jnull, .jstr "V1", .jnull, .jnull,
          .jnull, .jnull⟩, .ok 1, .ok 1⟩,
       ⟨⟨.jstr "P2", .jnull, .jnull, .jnull, .jstr "V2", .jnull, .jstr "S3",
          .jnull, .jnull⟩, .ok 1, .exn⟩]).totals.items_seen = 3 :=
  ⟨by decide,
    (detail_counters_partition no_row_lookup _ (by decide)).2⟩

/-- C9: the dedup key concatenates vendor and order identifiers with no
separator, so vendor `"12"` order `"3"` and vendor `"1"` order `"23"` —
distinct (vendor, order) pairs — share the key `"123"`; in a run containing
both orders only the first gets a header insert attempt (one header event,
at line 1, and one header row inserted). -/
theorem dedup_key_concatenation_collision :
    vendor_case_key ⟨.jstr "3", .jnull, .jnull, .jnull, .jstr "12", .jnull,
        .jstr "S1", .jnull, .jnull⟩
      = vendor_case_key ⟨.jstr "23", .jnull, .jnull, .jnull, .jstr "1",
        .jnull, .jstr "S2", .jnull, .jnull⟩ ∧
    ((⟨.jstr "3", .jnull, .jnull, .jnull, .jstr "12", .jnull, .jstr "S1",
        .jnull, .jnull⟩ : Item).vendor_number,
     (⟨.jstr "3", .jnull, .jnull, .jnull, .jstr "12", .jnull, .jstr "S1",
        .jnull, .jnull⟩ : Item).case_order_number)
      ≠ ((⟨.jstr "23", .jnull, .jnull, .jnull, .jstr "1", .jnull, .jstr "S2",
        .jnull, .jnull⟩ : Item).vendor_number,
     (⟨.jstr "23", .jnull, .jnull, .jnull, .jstr "1", .jnull, .jstr "S2",
        .jnull, .jnull⟩ : Item).case_order_number) ∧
    (run_loop no_row_lookup
      [⟨⟨.jstr "3", .jnull, .jnull, .jnull, .jstr "12", .jnull, .jstr "S1",
          .jnull, .jnull⟩, .ok 1, .ok 1⟩,
       ⟨⟨.jstr "23", .jnull, .jnull, .jnull, .jstr "1", .jnull, .jstr "S2",
          .jnull, .jnull⟩, .ok 1, .ok 1⟩]).hdrEvents.map Prod.fst = [1] ∧
    (run_loop no_row_lookup
      [⟨⟨.jstr "3", .jnull, .jnull, .jnull, .jstr "12", .jnull, .jstr "S1",
          .jnull, .jnull⟩, .ok 1, .ok 1⟩,
       ⟨⟨.jstr "23", .jnull, .jnull, .jnull, .jstr "1", .jnull, .jstr "S2",
          .jnull, .jnull⟩, .ok 1, .ok 1⟩]).totals.hdr_inserts = 1 := by
  decide

/-- C7: the vendor-name cache is idempotent. Starting from a cache with no
entry for the key, the first resolution performs exactly one downstream
query; resolving the same key again returns the value cached by the first
call (including a cached empty string), leaves the cache unchanged, and
performs no second query. -/
theorem vendor_cache_idempotent (lookup : String → LookupOutcome)
    (vendor_number : JVal) (cache : List (String × String))
    (hfresh : List.lookup (safe_str vendor_number) cache = none) :
    (get_vendor_name_cached lookup vendor_number cache).queries = 1 ∧
    (get_vendor_name_cached lookup vendor_number
        (get_vendor_name_cached lookup vendor_number cache).cache).value
      = (get_vendor_name_cached lookup vendor_number cache).value ∧
    (get_vendor_name_cached lookup vendor_number
        (get_vendor_name_cached lookup vendor_number cache).cache).cache
      = (get_vendor_name_cached lookup vendor_number cache).cache ∧
    (get_vendor_name_cached lookup vendor_number
        (get_vendor_name_cached lookup vendor_number cache).cache).queries
      = 0 := by
  cases hl : lookup (pyStr vendor_number) <;>
    · simp only [get_vendor_name_cached, hfresh, hl]
      simp [List.lookup]

theorem vendor_cache_idempotent_witness :
    List.lookup (safe_str (.jstr "V9")) ([] : List (String × String)) = none ∧
    (get_vendor_name_cached no_row_lookup (.jstr "V9") []).queries = 1 ∧
    (get_vendor_name_cached no_row_lookup (.jstr "V9")
        (get_vendor_name_cached no_row_lookup (.jstr "V9") []).cache).queries
      = 0 :=
  ⟨by decide, (vendor_cache_idempotent no_row_lookup (.jstr "V9") [] (by decide)).1,
    (vendor_cache_idempotent no_row_lookup (.jstr "V9") [] (by decide)).2.2.2⟩

/-- C5: if the target-database connectivity validation fails, `run_import`
aborts with the connectivity error before any remote interaction: its HTTP
trace is empty (no login, no job submission, no status poll). -/
theorem connectivity_failure_no_http (env : Env) (h : env.dbOk = false) :
    (run_import env).result = .connectError ∧
    (run_import env).httpCalls = [] := by
  unfold run_import
  simp [h]

theorem connectivity_failure_no_http_witness :
    (Env.mk false (.error ()) (.error ()) [] no_row_lookup
        (fun _ => .exn) (fun _ => .exn)).dbOk = false ∧
    (run_import (Env.mk false (.error ()) (.error ()) [] no_row_lookup
        (fun _ => .exn) (fun _ => .exn))).httpCalls = [] :=
  ⟨rfl, (connectivity_failure_no_http _ rfl).2⟩

/-- C4: when connectivity, login (with a non-empty token) and job submission
succeed and polling ends in success with an empty `data` array, the run
completes without error, all five counters are zero, and no insert statement
(header or detail) was ever attempted. -/
theorem empty_result_set_clean_run (env : Env) (p : Payload) (tok : String)
    (h1 : env.dbOk = true)
    (h2 : env.loginResp = .ok (some tok)) (h3 : ¬ tok = "")
    (h4 : ∃ j, env.submitResp = .ok j)
    (h5 : wait_for_job_completion default_timeout_seconds env.pollObs
      = some (.success p))
    (h6 : p.data = []) :
    (run_import env).result = .completed ∧
    (run_import env).loopState.totals = ⟨0, 0, 0, 0, 0⟩ ∧
    (run_import env).loopState.hdrEvents = [] ∧
    (run_import env).loopState.dtlEvents = [] := by
  obtain ⟨j, h4⟩ := h4
  unfold run_import
  simp [h1, h2, h3, h4, h5, h6, init_loop_state]

theorem empty_result_set_clean_run_witness :
    (run_import (Env.mk true (.ok (some "tok")) (.ok (some "job1"))
        [(⟨some "finished", none, none, []⟩, 0)] no_row_lookup
        (fun _ => .exn) (fun _ => .exn))).result = .completed ∧
    (run_import (Env.mk true (.ok (some "tok")) (.ok (some "job1"))
        [(⟨some "finished", none, none, []⟩, 0)] no_row_lookup
        (fun _ => .exn) (fun _ => .exn))).loopState.totals = ⟨0, 0, 0, 0, 0⟩ ∧
    (run_import (Env.mk true (.ok (some "tok")) (.ok (some "job1"))
        [(⟨some "finished", none, none, []⟩, 0)] no_row_lookup
        (fun _ => .exn) (fun _ => .exn))).loopState.hdrEvents = [] ∧
    (run_import (Env.mk true (.ok (some "tok")) (.ok (some "job1"))
        [(⟨some "finished", none, none, []⟩, 0)] no_row_lookup
        (fun _ => .exn) (fun _ => .exn))).loopState.dtlEvents = [] :=
  empty_result_set_clean_run _ ⟨some "finished", none, none, []⟩ "tok" rfl rfl
    (by decide) ⟨some "job1", rfl⟩ (by decide) rfl

/-- C8: a record whose SKU is empty or missing yields exactly a detail skip,
caught at the record boundary. In `pre ++ x :: post` with `safe_str x.sku`
empty: every record is still processed (no run abort); no detail insert is
executed at that record's line number; and relative to the same run with the
SKU replaced by a valid one (`y`, identical to `x` in every header-relevant
field, with a successful one-row detail insert), the detail-skip counter is
one higher and the detail-insert counter one lower, the whole header side
(counters, seen set, vendor cache, header inserts, line numbering) is
identical, and every other record's detail insert — including its line
number — is unchanged. -/
theorem empty_sku_detail_skip_isolated (lookup : String → LookupOutcome)
    (pre post : List ItemObs) (x y : ItemObs)
    (hsku : safe_str x.item.sku = "")
    (hy_sku : ¬ safe_str y.item.sku = "")
    (hy_hdr : hdr_agree x y)
    (hy_dtl : y.dtlDb = .ok 1) :
    (run_loop lookup (pre ++ x :: post)).totals.items_seen
      = (pre ++ x :: post).length ∧
    (∀ v, (pre.length + 1, v) ∉ (run_loop lookup (pre ++ x :: post)).dtlEvents) ∧
    (run_loop lookup (pre ++ x :: post)).totals.dtl_skipped
      = (run_loop lookup (pre ++ y :: post)).totals.dtl_skipped + 1 ∧
    (run_loop lookup (pre ++ y :: post)).totals.dtl_inserts
      = (run_loop lookup (pre ++ x :: post)).totals.dtl_inserts + 1 ∧
    hdr_state_agree (run_loop lookup (pre ++ x :: post))
      (run_loop lookup (pre ++ y :: post)) ∧
    (∀ e : Nat × List JVal, e.1 ≠ pre.length + 1 →
      (e ∈ (run_loop lookup (pre ++ x :: post)).dtlEvents ↔
        e ∈ (run_loop lookup (pre ++ y :: post)).dtlEvents)) := by
  obtain ⟨dx1, dx2, dx3⟩ := run_loop_fold_dtl lookup (pre ++ x :: post) init_loop_state
  obtain ⟨dy1, dy2, dy3⟩ := run_loop_fold_dtl lookup (pre ++ y :: post) init_loop_state
  have cx := (run_loop_fold_counts lookup (pre ++ x :: post) init_loop_state).1
  have hxnone : send_recdtl_values x.item (1 + pre.length) = none :=
    (send_recdtl_values_none_iff _ _).2 hsku
  obtain ⟨yvals, hys⟩ : ∃ w, send_recdtl_values y.item (1 + pre.length) = some w := by
    rcases hw : send_recdtl_values y.item (1 + pre.length) with _ | w
    · rw [send_recdtl_values_none_iff] at hw
      exact absurd hw hy_sku
    · exact ⟨w, rfl⟩
  have hxstep : expected_dtl_events (1 + pre.length) (x :: post)
      = expected_dtl_events (1 + pre.length + 1) post := by
    simp only [expected_dtl_events, hxnone]
  have hystep : expected_dtl_events (1 + pre.length) (y :: post)
      = (1 + pre.length, yvals) :: expected_dtl_events (1 + pre.length + 1) post := by
    simp only [expected_dtl_events, hys]
  have hrx_ev : (run_loop lookup (pre ++ x :: post)).dtlEvents
      = expected_dtl_events 1 pre
        ++ expected_dtl_events (1 + pre.length + 1) post := by
    unfold run_loop
    rw [dx3]
    simp only [init_loop_state, List.nil_append]
    rw [expected_dtl_events_append pre (x :: post) 1, hxstep]
  have hry_ev : (run_loop lookup (pre ++ y :: post)).dtlEvents
      = expected_dtl_events 1 pre
        ++ ((1 + pre.length, yvals)
          :: expected_dtl_events (1 + pre.length + 1) post) := by
    unfold run_loop
    rw [dy3]
    simp only [init_loop_state, List.nil_append]
    rw [expected_dtl_events_append pre (y :: post) 1, hystep]
  have hskx : dtl_skip_contrib x = 1 := by
    simp [dtl_skip_contrib, hsku]
  have hsky : dtl_skip_contrib y = 0 := by
    simp [dtl_skip_contrib, hy_sku, hy_dtl]
  have hinx : dtl_insert_contrib x = 0 := by
    simp [dtl_insert_contrib, hsku]
  have hiny : dtl_insert_contrib y = 1 := by
    simp [dtl_insert_contrib, hy_sku, hy_dtl, py_truthy_or_zero]
  refine ⟨?_, ?_, ?_, ?_, ?_, ?_⟩
  · unfold run_loop
    rw [cx]
    simp [init_loop_state]
  · intro v hmem
    rw [hrx_ev] at hmem
    rcases List.mem_append.1 hmem with hm | hm
    · have hb : pre.length + 1 < 1 + pre.length :=
        (expected_dtl_events_line_bounds pre 1 _ hm).2
      omega
    · have hb : 1 + pre.length + 1 ≤ pre.length + 1 :=
        (expected_dtl_events_line_bounds post (1 + pre.length + 1) _ hm).1
      omega
  · unfold run_loop
    rw [dx1, dy1]
    have : dtl_skip_count (pre ++ x :: post)
        = dtl_skip_count (pre ++ y :: post) + 1 := by
      simp only [dtl_skip_count, List.map_append, List.sum_append,
        List.map_cons, List.sum_cons, hskx, hsky]
      omega
    omega
  · unfold run_loop
    rw [dx2, dy2]
    have : dtl_insert_sum (pre ++ y :: post)
        = dtl_insert_sum (pre ++ x :: post) + 1 := by
      simp only [dtl_insert_sum, List.map_append, List.sum_append,
        List.map_cons, List.sum_cons, hinx, hiny]
      omega
    omega
  · have hfa : List.Forall₂ hdr_agree (pre ++ x :: post) (pre ++ y :: post) :=
      forall₂_hdr_agree_append (List.forall₂_same.2 fun z _ => hdr_agree_refl z)
        (List.Forall₂.cons hy_hdr (List.forall₂_same.2 fun z _ => hdr_agree_refl z))
    exact run_loop_fold_hdr_agree lookup hfa init_loop_state init_loop_state
      ⟨rfl, rfl, rfl, rfl, rfl, rfl, rfl⟩
  · intro e he
    rw [hrx_ev, hry_ev]
    simp only [List.mem_append, List.mem_cons]
    constructor
    · rintro (hm | hm)
      · exact Or.inl hm
      · exact Or.inr (Or.inr hm)
    · rintro (hm | hm | hm)
      · exact Or.inl hm
      · subst hm
        simp at he
        omega
      · exact Or.inr hm

theorem empty_sku_detail_skip_isolated_witness :
    safe_str (⟨⟨.jint 7, .jnull, .jnull, .jnull, .jstr "V1", .jnull, .jnull,
        .jnull, .jnull⟩, .exn, .exn⟩ : ItemObs).item.sku = "" ∧
    (run_loop no_row_lookup
      ([⟨⟨.jint 5, .jnull, .jnull, .jnull, .jstr "V1", .jnull, .jstr "S1",
          .jnull, .jnull⟩, .ok 1, .ok 1⟩]
        ++ (⟨⟨.jint 7, .jnull, .jnull, .jnull, .jstr "V1", .jnull, .jnull,
            .jnull, .jnull⟩, .exn, .exn⟩ : ItemObs)
        :: [⟨⟨.jint 5, .jnull, .jnull, .jnull, .jstr "V2", .jnull, .jstr "S2",
            .jnull, .jnull⟩, .ok 1, .ok 1⟩])).totals.dtl_skipped
      = (run_loop no_row_lookup
        ([⟨⟨.jint 5, .jnull, .jnull, .jnull, .jstr "V1", .jnull, .jstr "S1",
            .jnull, .jnull⟩, .ok 1, .ok 1⟩]
          ++ (⟨⟨.jint 7, .jnull, .jnull, .jnull, .jstr "V1", .jnull,
              .jstr "FIXED", .jnull, .jnull⟩, .exn, .ok 1⟩ : ItemObs)
          :: [⟨⟨.jint 5, .jnull, .jnull, .jnull, .jstr "V2", .jnull,
              .jstr "S2", .jnull, .jnull⟩, .ok 1, .ok 1⟩])).totals.dtl_skipped
        + 1 :=
  ⟨by decide,
    (empty_sku_detail_skip_isolated no_row_lookup
      [⟨⟨.jint 5, .jnull, .jnull, .jnull, .jstr "V1", .jnull, .jstr "S1",
          .jnull, .jnull⟩, .ok 1, .ok 1⟩]
      [⟨⟨.jint 5, .jnull, .jnull, .jnull, .jstr "V2", .jnull, .jstr "S2",
          .jnull, .jnull⟩, .ok 1, .ok 1⟩]
      ⟨⟨.jint 7, .jnull, .jnull, .jnull, .jstr "V1", .jnull, .jnull,
          .jnull, .jnull⟩, .exn, .exn⟩
      ⟨⟨.jint 7, .jnull, .jnull, .jnull, .jstr "V1", .jnull, .jstr "FIXED",
          .jnull, .jnull⟩, .exn, .ok 1⟩
      (by decide) (by decide) ⟨rfl, rfl, rfl, rfl, rfl, rfl⟩ rfl).2.2.1⟩
